import Mathlib

/-!
Verification of the `vite-plugin-wp-hmr` template assembler.

The core of the repository is `buildPhp` (src/index.ts, lines 30-121): a pure
function that turns a dev-server origin URL and an options object into the text
of a generated WordPress mu-plugin, assembled as a list of lines joined with
newlines.  The definitions below embed that function line by line; the theorems
settle the frozen claims about it.

PHP apostrophes and braces appearing in the generated text are written with the
escapes `\x27` (apostrophe), `\x7b` / `\x7d` (braces) inside Lean string
literals; they denote exactly those characters.
-/

set_option maxRecDepth 8000

/-! ## Data model (src/index.ts) -/

/-- Value of the `csp` option, `boolean | string` in `WpHmrOptions`
(src/index.ts line 18). -/
inductive CspOption where
  | bool (b : Bool)
  | str (s : String)
deriving DecidableEq, Repr

/-- Translation of the `WpHmrOptions` interface (src/index.ts lines 5-26).
Optional fields are `Option`s; `none` is an absent (undefined) field. -/
structure WpHmrOptions where
  outputDir : String
  fileName : Option String := none
  devPatterns : Option (List String) := none
  cssReloadEvents : Option (List String) := none
  csp : Option CspOption := none
  cleanup : Option Bool := none
  cacheTtl : Option Int := none
  origin : Option String := none
deriving DecidableEq, Repr

/-- Result of `new URL(origin)` as used by `buildPhp` (src/index.ts line 31):
`protocol` is the scheme with its trailing colon (e.g. `"https:"`),
`hostname` the host, and `port` the decimal port string, `""` when the URL has
no explicit port (or the explicit port equals the scheme default, which the
WHATWG parser normalises away). -/
structure Url where
  protocol : String
  hostname : String
  port : String
deriving DecidableEq, Repr

/-- Numeric value of a list of decimal digit characters. -/
def digitsToNat (l : List Char) : Nat :=
  l.foldl (fun acc c => acc * 10 + (c.toNat - '0'.toNat)) 0

/-- Model of the WHATWG `new URL(origin)` constructor (a platform builtin, not
repository code) restricted to absolute URLs of the shape
`scheme://host[:port][/...]` — the shape of dev-server origins this plugin
receives.  `none` models the constructor throwing.  The port must be decimal
digits with value at most 65535; a port equal to the scheme default (80 for
http, 443 for https) is normalised to the empty string, as the builtin does. -/
def parseUrl (s : String) : Option Url :=
  let cs := s.data
  let scheme := cs.takeWhile (fun c => c.isAlpha)
  let rest := cs.drop scheme.length
  if scheme = [] then none
  else if rest.take 3 = [':', '/', '/'] then
    let auth := (rest.drop 3).takeWhile (fun c => c != '/' && c != '?' && c != '#')
    let host := auth.takeWhile (fun c => c != ':')
    if host = [] then none
    else if host.length = auth.length then
      some ⟨scheme.asString ++ ":", host.asString, ""⟩
    else
      let portDigits := auth.drop (host.length + 1)
      if portDigits.all (fun c => c.isDigit) then
        if portDigits = [] then
          some ⟨scheme.asString ++ ":", host.asString, ""⟩
        else
          let n := digitsToNat portDigits
          if n ≤ 65535 then
            if (scheme.asString = "http" ∧ n = 80) ∨
                (scheme.asString = "https" ∧ n = 443) then
              some ⟨scheme.asString ++ ":", host.asString, ""⟩
            else
              some ⟨scheme.asString ++ ":", host.asString, toString n⟩
          else none
      else none
  else none

/-- Base TLD pattern list `DEFAULT_TLDS` (src/index.ts line 28). -/
def DEFAULT_TLDS : List String := ["local", "test", "dev"]

/-- Port resolution of src/index.ts line 33:
`url.port || (url.protocol === 'https:' ? '443' : '80')`. -/
def resolvePort (url : Url) : String :=
  if url.port = "" then (if url.protocol = "https:" then "443" else "80")
  else url.port

/-- Fixed default permissive policy string (src/index.ts line 108). -/
def defaultCspPolicy : String :=
  "Content-Security-Policy: script-src * blob: \x27unsafe-inline\x27 \x27unsafe-eval\x27; worker-src * blob:; connect-src * \x27unsafe-inline\x27;"

/-- Lines pushed for one CSS-reload event (src/index.ts lines 88-94). -/
def cssEventLines (event : String) : List String :=
  ["\t\techo \x27hot.on(\"" ++ (event ++ "\", () => \x7b\x27 . \"\\n\";"),
   "\t\techo \x27  document.querySelectorAll(\"link[rel=stylesheet]\").forEach(l => \x7b\x27 . \"\\n\";",
   "\t\techo \x27    const u = new URL(l.href); u.searchParams.set(\"t\", Date.now()); l.href = u.toString();\x27 . \"\\n\";",
   "\t\techo \x27  \x7d);\x27 . \"\\n\";",
   "\t\techo \x27\x7d);\x27 . \"\\n\";"]

/-- Line-by-line translation of the body of `buildPhp` (src/index.ts lines
30-120): the `lines` array as pushed, before the final `lines.join('\n')`.
The `url` argument is the result of `new URL(origin)` (line 31). -/
def buildPhpLines (origin : String) (url : Url) (options : WpHmrOptions) :
    List String :=
  let host := url.hostname
  let port := resolvePort url
  let cacheTtl : Int := options.cacheTtl.getD 5
  let extraTlds := options.devPatterns.getD []
  let allTlds := DEFAULT_TLDS ++ extraTlds
  let tldList := String.intercalate ", " (allTlds.map (fun t => "\x27" ++ t ++ "\x27"))
  ["<?php",
   "/**",
   " * Plugin Name: Vite HMR",
   " * Description: Injects Vite dev client for live reload. Auto-generated \u00e2\u20ac\u201d do not edit.",
   " */",
   "",
   "if ( ! function_exists( \x27vite_hmr_is_dev\x27 ) ) \x7b",
   "\tfunction vite_hmr_is_dev(): bool \x7b",
   "\t\t$host = $_SERVER[\x27HTTP_HOST\x27] ?? \x27\x27;",
   "\t\tif ( $host === \x27localhost\x27 || $host === \x27127.0.0.1\x27 ) \x7b return true; \x7d",
   "\t\tforeach ( [ " ++ (tldList ++ " ] as $tld ) \x7b"),
   "\t\t\tif ( preg_match( \x27/\\\\.\x27 . $tld . \x27$/i\x27, $host ) ) \x7b return true; \x7d",
   "\t\t\x7d",
   "\t\treturn false;",
   "\t\x7d",
   "\x7d",
   "",
   "if ( ! function_exists( \x27vite_hmr_is_running\x27 ) ) \x7b",
   "\tfunction vite_hmr_is_running(): bool \x7b",
   "\t\t$key    = \x27vite_hmr_" ++ (port ++ "\x27;"),
   "\t\t$cached = get_transient( $key );",
   "\t\tif ( $cached !== false ) \x7b return (bool) $cached; \x7d",
   "\t\t$conn   = @fsockopen( \x27" ++ (host ++ ("\x27, " ++ (port ++ ", $errno, $errstr, 1 );"))),
   "\t\t$result = is_resource( $conn );",
   "\t\tif ( $result ) \x7b fclose( $conn ); \x7d",
   "\t\tset_transient( $key, (int) $result, " ++ (toString cacheTtl ++ " );"),
   "\t\treturn $result;",
   "\t\x7d",
   "\x7d",
   "",
   "if ( ! function_exists( \x27vite_hmr_inject\x27 ) ) \x7b",
   "\tfunction vite_hmr_inject(): void \x7b",
   "\t\tif ( ! vite_hmr_is_dev() || ! vite_hmr_is_running() ) \x7b return; \x7d",
   "\t\techo \x27<script type=\"module\" src=\"" ++ (origin ++ "/@vite/client\"></script>\x27 . \"\\n\";")]
  ++ (match options.cssReloadEvents with
      | some evs =>
        if evs.length = 0 then []
        else
          ["\t\techo \x27<script type=\"module\">\x27 . \"\\n\";",
           "\t\techo \x27import \x7b createHotContext \x7d from \"" ++ (origin ++ "/@vite/client\";\x27 . \"\\n\";"),
           "\t\techo \x27const hot = createHotContext(\"/wp-hmr\");\x27 . \"\\n\";"]
          ++ evs.flatMap cssEventLines
          ++ ["\t\techo \x27</script>\x27 . \"\\n\";"]
      | none => [])
  ++ ["\t\x7d",
      "\x7d",
      "add_action( \x27wp_head\x27, \x27vite_hmr_inject\x27, 1 );",
      ""]
  ++ (if options.csp = some (CspOption.bool false) then []
      else
        let policy := match options.csp with
          | some (CspOption.str s) => s
          | _ => defaultCspPolicy
        ["if ( ! function_exists( \x27vite_hmr_csp\x27 ) ) \x7b",
         "\tfunction vite_hmr_csp(): void \x7b",
         "\t\tif ( ! vite_hmr_is_dev() ) \x7b return; \x7d",
         "\t\theader( \"" ++ (policy ++ "\" );"),
         "\t\x7d",
         "\x7d",
         "add_action( \x27send_headers\x27, \x27vite_hmr_csp\x27, 1 );",
         ""])

/-- Translation of `buildPhp` (src/index.ts lines 30-121).  The construction
`new URL(origin)` on line 31 is the only fallible step of the function; its
throwing is modelled by `none`.  On success the result is the newline-join of
the pushed lines (line 120). -/
def buildPhp (origin : String) (options : WpHmrOptions) : Option String :=
  (parseUrl origin).map fun url =>
    String.intercalate "\n" (buildPhpLines origin url options)

/-! ## Fragment structure

The spec (§3, §4.1) describes the generated script as an ordered sequence of
fragments: header comment, dev-detector, reachability probe, injector with its
registration, and (conditionally) the policy function with its registration.
The following definitions name those fragments, following the spec's fragment
boundaries; `buildPhpLines_decomp` below relates them to the source-translated
`buildPhpLines`. -/

/-- Header fragment: static identification comment block (spec §4.1, unit 1). -/
def headerFragment : List String :=
  ["<?php",
   "/**",
   " * Plugin Name: Vite HMR",
   " * Description: Injects Vite dev client for live reload. Auto-generated \u00e2\u20ac\u201d do not edit.",
   " */",
   ""]

/-- Dev-environment detector fragment for a merged pattern list
(spec §4.1, unit 2). -/
def detectorFragment (patterns : List String) : List String :=
  let tldList := String.intercalate ", " (patterns.map (fun t => "\x27" ++ t ++ "\x27"))
  ["if ( ! function_exists( \x27vite_hmr_is_dev\x27 ) ) \x7b",
   "\tfunction vite_hmr_is_dev(): bool \x7b",
   "\t\t$host = $_SERVER[\x27HTTP_HOST\x27] ?? \x27\x27;",
   "\t\tif ( $host === \x27localhost\x27 || $host === \x27127.0.0.1\x27 ) \x7b return true; \x7d",
   "\t\tforeach ( [ " ++ (tldList ++ " ] as $tld ) \x7b"),
   "\t\t\tif ( preg_match( \x27/\\\\.\x27 . $tld . \x27$/i\x27, $host ) ) \x7b return true; \x7d",
   "\t\t\x7d",
   "\t\treturn false;",
   "\t\x7d",
   "\x7d",
   ""]

/-- Reachability-probe fragment (spec §4.1, unit 3). -/
def probeFragment (host port : String) (cacheTtl : Int) : List String :=
  ["if ( ! function_exists( \x27vite_hmr_is_running\x27 ) ) \x7b",
   "\tfunction vite_hmr_is_running(): bool \x7b",
   "\t\t$key    = \x27vite_hmr_" ++ (port ++ "\x27;"),
   "\t\t$cached = get_transient( $key );",
   "\t\tif ( $cached !== false ) \x7b return (bool) $cached; \x7d",
   "\t\t$conn   = @fsockopen( \x27" ++ (host ++ ("\x27, " ++ (port ++ ", $errno, $errstr, 1 );"))),
   "\t\t$result = is_resource( $conn );",
   "\t\tif ( $result ) \x7b fclose( $conn ); \x7d",
   "\t\tset_transient( $key, (int) $result, " ++ (toString cacheTtl ++ " );"),
   "\t\treturn $result;",
   "\t\x7d",
   "\x7d",
   ""]

/-- Injector fragment together with its extension-point registration
(spec §4.1, unit 4). -/
def injectorFragment (origin : String) (cssReloadEvents : Option (List String)) :
    List String :=
  ["if ( ! function_exists( \x27vite_hmr_inject\x27 ) ) \x7b",
   "\tfunction vite_hmr_inject(): void \x7b",
   "\t\tif ( ! vite_hmr_is_dev() || ! vite_hmr_is_running() ) \x7b return; \x7d",
   "\t\techo \x27<script type=\"module\" src=\"" ++ (origin ++ "/@vite/client\"></script>\x27 . \"\\n\";")]
  ++ (match cssReloadEvents with
      | some evs =>
        if evs.length = 0 then []
        else
          ["\t\techo \x27<script type=\"module\">\x27 . \"\\n\";",
           "\t\techo \x27import \x7b createHotContext \x7d from \"" ++ (origin ++ "/@vite/client\";\x27 . \"\\n\";"),
           "\t\techo \x27const hot = createHotContext(\"/wp-hmr\");\x27 . \"\\n\";"]
          ++ evs.flatMap cssEventLines
          ++ ["\t\techo \x27</script>\x27 . \"\\n\";"]
      | none => [])
  ++ ["\t\x7d",
      "\x7d",
      "add_action( \x27wp_head\x27, \x27vite_hmr_inject\x27, 1 );",
      ""]

/-- Policy fragment together with its extension-point registration
(spec §4.1, unit 5). -/
def policyFragment (policy : String) : List String :=
  ["if ( ! function_exists( \x27vite_hmr_csp\x27 ) ) \x7b",
   "\tfunction vite_hmr_csp(): void \x7b",
   "\t\tif ( ! vite_hmr_is_dev() ) \x7b return; \x7d",
   "\t\theader( \"" ++ (policy ++ "\" );"),
   "\t\x7d",
   "\x7d",
   "add_action( \x27send_headers\x27, \x27vite_hmr_csp\x27, 1 );",
   ""]

/-- Policy text selected for a `csp` option value (src/index.ts lines 105-108):
a string value is used verbatim, anything else yields the fixed default. -/
def cspPolicy : Option CspOption → String
  | some (CspOption.str s) => s
  | _ => defaultCspPolicy

/-! ## Named lines of the generated script -/

/-- Existence guard opening the dev-detector definition (src line 51). -/
def devGuardLine : String := "if ( ! function_exists( \x27vite_hmr_is_dev\x27 ) ) \x7b"

/-- Declaration line of `vite_hmr_is_dev` (src line 52). -/
def devFunctionLine : String := "\tfunction vite_hmr_is_dev(): bool \x7b"

/-- Existence guard opening the probe definition (src line 64). -/
def runGuardLine : String := "if ( ! function_exists( \x27vite_hmr_is_running\x27 ) ) \x7b"

/-- Declaration line of `vite_hmr_is_running` (src line 65). -/
def runFunctionLine : String := "\tfunction vite_hmr_is_running(): bool \x7b"

/-- Existence guard opening the injector definition (src line 79). -/
def injGuardLine : String := "if ( ! function_exists( \x27vite_hmr_inject\x27 ) ) \x7b"

/-- Declaration line of `vite_hmr_inject` (src line 80). -/
def injFunctionLine : String := "\tfunction vite_hmr_inject(): void \x7b"

/-- Existence guard opening the policy definition (src line 110). -/
def cspGuardLine : String := "if ( ! function_exists( \x27vite_hmr_csp\x27 ) ) \x7b"

/-- Declaration line of `vite_hmr_csp` (src line 111). -/
def cspFunctionLine : String := "\tfunction vite_hmr_csp(): void \x7b"

/-- Body line of `vite_hmr_csp` guarding on dev detection (src line 112). -/
def cspBodyLine : String := "\t\tif ( ! vite_hmr_is_dev() ) \x7b return; \x7d"

/-- Emitted `header(...)` call carrying the policy text (src line 113). -/
def policyHeaderLine (policy : String) : String :=
  "\t\theader( \"" ++ (policy ++ "\" );")

/-- Injector registration statement (src line 100). -/
def wpHeadRegistration : String :=
  "add_action( \x27wp_head\x27, \x27vite_hmr_inject\x27, 1 );"

/-- Policy registration statement (src line 116). -/
def sendHeadersRegistration : String :=
  "add_action( \x27send_headers\x27, \x27vite_hmr_csp\x27, 1 );"

/-- Emitted `foreach` line carrying the pattern list (src line 55). -/
def foreachPatternsLine (patterns : List String) : String :=
  "\t\tforeach ( [ " ++
    (String.intercalate ", " (patterns.map (fun t => "\x27" ++ t ++ "\x27")) ++
      " ] as $tld ) \x7b")

/-- Emitted probe connection line carrying host and port (src line 69). -/
def fsockopenLine (host port : String) : String :=
  "\t\t$conn   = @fsockopen( \x27" ++ (host ++ ("\x27, " ++ (port ++ ", $errno, $errstr, 1 );")))

/-- Emitted cache-key line carrying the resolved port (src line 66). -/
def cacheKeyLine (port : String) : String :=
  "\t\t$key    = \x27vite_hmr_" ++ (port ++ "\x27;")

/-- Emitted cache-write line carrying the TTL literal (src line 72). -/
def setTransientLine (ttl : String) : String :=
  "\t\tset_transient( $key, (int) $result, " ++ (ttl ++ " );")

/-- First line emitted for a CSS-reload event: the listener registration
(src line 89). -/
def hotOnLine (event : String) : String :=
  "\t\techo \x27hot.on(\"" ++ (event ++ "\", () => \x7b\x27 . \"\\n\";")

/-- Emitted hot-context import line (src line 86). -/
def importHotContextLine (origin : String) : String :=
  "\t\techo \x27import \x7b createHotContext \x7d from \"" ++ (origin ++ "/@vite/client\";\x27 . \"\\n\";")

/-- Emitted hot-context creation line (src line 87). -/
def createHotContextLine : String :=
  "\t\techo \x27const hot = createHotContext(\"/wp-hmr\");\x27 . \"\\n\";"

/-- Fixed leading text shared by all listener-registration lines. -/
def listenerLead : String := "\t\techo \x27hot.on(\""

/-- Decides whether a generated line is a listener registration: it begins
with the fixed `hot.on(` echo text. -/
def isListenerLine (l : String) : Bool := listenerLead.data.isPrefixOf l.data

/-! ## Concrete sample inputs (used by witnesses and counterexamples) -/

/-- Default dev-server origin of the plugin (src/index.ts line 136 with the
default port 5173). -/
def sampleOrigin : String := "http://localhost:5173"

/-- Parse of `sampleOrigin`. -/
def sampleUrl : Url := ⟨"http:", "localhost", "5173"⟩

/-- Minimal options object: only the required `outputDir` is set. -/
def sampleOptions : WpHmrOptions := { outputDir := "/tmp/mu-plugins" }

/-! ## String toolkit

Interpolated lines are written as `literalLead ++ rest`; two lines whose
literal leads differ at some common position are distinct whatever the
interpolated parts are. -/

/-- Two character lists diverge when they differ at some position that both
lists reach.  If they diverge, no extensions of them can be equal. -/
def diverge : List Char → List Char → Bool
  | a :: as, b :: bs => a != b || diverge as bs
  | _, _ => false

theorem diverge_ne : ∀ {p q : List Char}, diverge p q = true →
    ∀ (u v : List Char), p ++ u ≠ q ++ v
  | a :: as, b :: bs, h, u, v => by
    simp only [diverge, Bool.or_eq_true, bne_iff_ne, ne_eq] at h
    rcases h with h | h
    · intro he
      simp only [List.cons_append, List.cons.injEq] at he
      exact h he.1
    · intro he
      simp only [List.cons_append, List.cons.injEq] at he
      exact diverge_ne h u v he.2

theorem str_ext {s t : String} (h : s.data = t.data) : s = t := by
  cases s
  cases t
  exact congrArg String.mk h

theorem str_diverge_ne {p q : String} (x y : String)
    (h : diverge p.data q.data = true) : p ++ x ≠ q ++ y := by
  intro he
  exact diverge_ne h x.data y.data
    (by simpa [String.data_append] using congrArg String.data he)

@[simp] theorem app_eq_app_iff_false {p q : String} (x y : String)
    (h : diverge p.data q.data = true) : (p ++ x = q ++ y) ↔ False :=
  iff_false_intro (str_diverge_ne x y h)

@[simp] theorem lit_eq_app_iff_false {t q : String} (y : String)
    (h : diverge t.data q.data = true) : (t = q ++ y) ↔ False := by
  refine iff_false_intro fun he => ?_
  exact diverge_ne h [] y.data
    (by simpa [String.data_append] using congrArg String.data he)

@[simp] theorem app_eq_lit_iff_false {q t : String} (y : String)
    (h : diverge q.data t.data = true) : (q ++ y = t) ↔ False := by
  refine iff_false_intro fun he => ?_
  exact diverge_ne h y.data []
    (by simpa [String.data_append] using congrArg String.data he)

@[simp] theorem app_eq_empty_iff_false {q : String} (y : String)
    (h : q.data ≠ []) : (q ++ y = "") ↔ False := by
  refine iff_false_intro fun he => h ?_
  have hd := congrArg String.data he
  rw [String.data_append] at hd
  exact (List.append_eq_nil.mp hd).1

@[simp] theorem empty_eq_app_iff_false {q : String} (y : String)
    (h : q.data ≠ []) : ("" = q ++ y) ↔ False := by
  refine iff_false_intro fun he => h ?_
  have hd := congrArg String.data he.symm
  rw [String.data_append] at hd
  exact (List.append_eq_nil.mp hd).1

/-- Cancellation for lines sharing both their literal lead and tail. -/
@[simp] theorem app_cancel_iff (p s a b : String) :
    (p ++ (a ++ s) = p ++ (b ++ s)) ↔ a = b := by
  constructor
  · intro h
    have hd := congrArg String.data h
    simp only [String.data_append] at hd
    exact str_ext (List.append_cancel_right (List.append_cancel_left hd))
  · intro h
    rw [h]

theorem prefixOf_iff {l₁ l₂ : List Char} : l₁.isPrefixOf l₂ = true ↔ l₁ <+: l₂ :=
  List.isPrefixOf_iff_prefix

@[simp] theorem isListenerLine_hotOn (e : String) :
    isListenerLine ("\t\techo \x27hot.on(\"" ++ (e ++ "\", () => \x7b\x27 . \"\\n\";")) = true := by
  rw [isListenerLine, prefixOf_iff, String.data_append]
  exact List.prefix_append _ _

@[simp] theorem isListenerLine_app {q : String} (y : String)
    (h : diverge listenerLead.data q.data = true) :
    isListenerLine (q ++ y) = false := by
  have hn : ¬ listenerLead.data <+: (q ++ y).data := by
    intro hp
    obtain ⟨t, ht⟩ := hp
    rw [String.data_append] at ht
    exact diverge_ne h t y.data (by simpa using ht)
  rw [isListenerLine, ← Bool.not_eq_true, prefixOf_iff]
  exact hn

/-! ## Structural lemmas -/

/-- Decomposition of the translated `buildPhp` body into the spec's fragments,
in the spec's fixed order. -/
theorem buildPhpLines_decomp (origin : String) (url : Url) (o : WpHmrOptions) :
    buildPhpLines origin url o =
      headerFragment
      ++ detectorFragment (DEFAULT_TLDS ++ o.devPatterns.getD [])
      ++ probeFragment url.hostname (resolvePort url) (o.cacheTtl.getD 5)
      ++ injectorFragment origin o.cssReloadEvents
      ++ (if o.csp = some (CspOption.bool false) then []
          else policyFragment (cspPolicy o.csp)) := by
  obtain ⟨od, fn, dp, cre, csp, cl, ct, org⟩ := o
  rcases csp with _ | c
  · simp [buildPhpLines, headerFragment, detectorFragment, probeFragment,
      injectorFragment, policyFragment, cspPolicy]
  · rcases c with b | s
    · rcases b with _ | _ <;>
        simp [buildPhpLines, headerFragment, detectorFragment, probeFragment,
          injectorFragment, policyFragment, cspPolicy]
    · simp [buildPhpLines, headerFragment, detectorFragment, probeFragment,
        injectorFragment, policyFragment, cspPolicy]

theorem infix_extend {l M : List String} (A B : List String) (h : l <:+: M) :
    l <:+: A ++ M ++ B :=
  h.trans (List.infix_append A M B)

/-- Occurrence count of a line occurring once in the middle of a split list. -/
theorem count_split_one {a : String} {A B : List String}
    (hA : a ∉ A) (hB : a ∉ B) : (A ++ a :: B).count a = 1 := by
  rw [List.count_append, List.count_eq_zero.mpr hA, List.count_cons_self,
    List.count_eq_zero.mpr hB]

/-- Listener lines of the per-event blocks are exactly one per event, in input
order. -/
theorem filter_flatMap_cssEventLines (evs : List String) :
    (evs.flatMap cssEventLines).filter isListenerLine = evs.map hotOnLine := by
  induction evs with
  | nil => rfl
  | cons e es ih =>
    rw [List.flatMap_cons, List.filter_append, ih, List.map_cons]
    simp +decide [cssEventLines, List.filter_cons, hotOnLine]

/-! ## Claims -/

/-- C3: for every `devPatterns` input (including absent), the pattern list
emitted into the generated detector equals the fixed base list
`['local', 'test', 'dev']` followed by the supplied patterns, in the supplied
order, with no deduplication: the emitted `foreach` line carries literally
`DEFAULT_TLDS ++ supplied`, even when a supplied pattern repeats a base one. -/
theorem pattern_list_is_base_then_supplied
    (origin : String) (url : Url) (o : WpHmrOptions) :
    DEFAULT_TLDS = ["local", "test", "dev"]
    ∧ foreachPatternsLine (DEFAULT_TLDS ++ o.devPatterns.getD [])
        ∈ buildPhpLines origin url o := by
  refine ⟨rfl, ?_⟩
  simp [buildPhpLines, foreachPatternsLine, List.mem_append, List.mem_cons]

/-- C4: for every origin string accepted by the URL parser, the host and port
literals embedded in the probe fragment of the output equal the origin's
hostname and resolved port exactly; the resolved port is the explicit port when
present and defaults to 443 for the https scheme and 80 otherwise. -/
theorem probe_host_port_match_origin (s : String) (u : Url) (o : WpHmrOptions)
    (_h : parseUrl s = some u) :
    fsockopenLine u.hostname (resolvePort u) ∈ buildPhpLines s u o
    ∧ (u.port = "" →
        resolvePort u = (if u.protocol = "https:" then "443" else "80"))
    ∧ (u.port ≠ "" → resolvePort u = u.port) := by
  refine ⟨?_, ?_, ?_⟩
  · simp [buildPhpLines, fsockopenLine, List.mem_append, List.mem_cons]
  · intro hp
    simp [resolvePort, hp]
  · intro hp
    simp [resolvePort, hp]

theorem probe_host_port_match_origin_witness :
    parseUrl "https://mysite.local:3000" = some ⟨"https:", "mysite.local", "3000"⟩
    ∧ fsockopenLine "mysite.local" "3000"
        ∈ buildPhpLines "https://mysite.local:3000"
            ⟨"https:", "mysite.local", "3000"⟩ { outputDir := "/tmp/mu-plugins" } := by
  refine ⟨by decide, ?_⟩
  have := (probe_host_port_match_origin "https://mysite.local:3000"
      ⟨"https:", "mysite.local", "3000"⟩ { outputDir := "/tmp/mu-plugins" }
      (by decide)).1
  exact (by decide : resolvePort ⟨"https:", "mysite.local", "3000"⟩ = "3000") ▸ this

/-- C7: for every origin string the URL parser accepts and every well-typed
options object, `buildPhp` returns a string; the URL construction is its only
fallible step. -/
theorem buildPhp_total_on_valid_origin (origin : String) (o : WpHmrOptions)
    (u : Url) (h : parseUrl origin = some u) :
    buildPhp origin o =
      some (String.intercalate "\n" (buildPhpLines origin u o)) := by
  rw [buildPhp, h, Option.map_some']

theorem buildPhp_total_on_valid_origin_witness :
    parseUrl "http://localhost:5173" = some ⟨"http:", "localhost", "5173"⟩
    ∧ buildPhp "http://localhost:5173" { outputDir := "/tmp/mu-plugins" } =
        some (String.intercalate "\n" (buildPhpLines "http://localhost:5173"
          ⟨"http:", "localhost", "5173"⟩ { outputDir := "/tmp/mu-plugins" })) :=
  ⟨by decide, buildPhp_total_on_valid_origin _ _ _ (by decide)⟩

/-- C8: the cache key emitted into the probe fragment is the fixed namespace
text `vite_hmr_` followed by the resolved port, and two urls whose resolved
ports differ get different cache keys. -/
theorem cache_key_namespaced_by_port (origin : String) (url : Url)
    (o : WpHmrOptions) :
    cacheKeyLine (resolvePort url) ∈ buildPhpLines origin url o
    ∧ (∀ u₁ u₂ : Url, resolvePort u₁ ≠ resolvePort u₂ →
        "vite_hmr_" ++ resolvePort u₁ ≠ "vite_hmr_" ++ resolvePort u₂) := by
  constructor
  · simp [buildPhpLines, cacheKeyLine, List.mem_append, List.mem_cons]
  · intro u₁ u₂ hne he
    apply hne
    have hd := congrArg String.data he
    simp only [String.data_append] at hd
    exact str_ext (List.append_cancel_left hd)

theorem cache_key_namespaced_by_port_witness :
    resolvePort ⟨"http:", "h", "81"⟩ ≠ resolvePort ⟨"http:", "h", "82"⟩
    ∧ "vite_hmr_" ++ resolvePort ⟨"http:", "h", "81"⟩ ≠
        "vite_hmr_" ++ resolvePort ⟨"http:", "h", "82"⟩ :=
  ⟨by decide,
    (cache_key_namespaced_by_port "http://h:81" ⟨"http:", "h", "81"⟩
      { outputDir := "" }).2 _ _ (by decide)⟩

/-- C9: the configured `cacheTtl` appears unchanged as the TTL literal of the
emitted `set_transient` cache-write line, and an omitted `cacheTtl` yields the
literal `5`. -/
theorem cacheTtl_literal_emitted (origin : String) (url : Url)
    (o : WpHmrOptions) :
    setTransientLine (toString (o.cacheTtl.getD 5)) ∈ buildPhpLines origin url o
    ∧ (o.cacheTtl = none →
        setTransientLine "5" ∈ buildPhpLines origin url o) := by
  have hm : setTransientLine (toString (o.cacheTtl.getD 5))
      ∈ buildPhpLines origin url o := by
    simp [buildPhpLines, setTransientLine, List.mem_append, List.mem_cons]
  refine ⟨hm, fun hn => ?_⟩
  have h5 : setTransientLine (toString (o.cacheTtl.getD 5)) =
      setTransientLine "5" := by
    rw [hn]
    rfl
  exact h5 ▸ hm

theorem cacheTtl_literal_emitted_witness :
    setTransientLine "5" ∈ buildPhpLines "http://h:81" ⟨"http:", "h", "81"⟩
      { outputDir := "" } :=
  (cacheTtl_literal_emitted "http://h:81" ⟨"http:", "h", "81"⟩
    { outputDir := "" }).2 rfl

/-! ## Guard and registration placement lemmas -/

theorem devPair_in_detector (ps : List String) :
    [devGuardLine, devFunctionLine] <:+: detectorFragment ps :=
  ⟨[], _, rfl⟩

theorem runPair_in_probe (h p : String) (t : Int) :
    [runGuardLine, runFunctionLine] <:+: probeFragment h p t :=
  ⟨[], _, rfl⟩

theorem injPair_in_injector (origin : String) (cre : Option (List String)) :
    [injGuardLine, injFunctionLine] <:+: injectorFragment origin cre :=
  ⟨[], _, rfl⟩

theorem cspPair_in_policy (p : String) :
    [cspGuardLine, cspFunctionLine] <:+: policyFragment p :=
  ⟨[], _, rfl⟩

theorem wpHeadPair_in_injector (origin : String) (cre : Option (List String)) :
    ["\x7d", wpHeadRegistration] <:+: injectorFragment origin cre := by
  have h : ∀ X : List String, ["\x7d", wpHeadRegistration] <:+:
      (["if ( ! function_exists( \x27vite_hmr_inject\x27 ) ) \x7b",
        "\tfunction vite_hmr_inject(): void \x7b",
        "\t\tif ( ! vite_hmr_is_dev() || ! vite_hmr_is_running() ) \x7b return; \x7d",
        "\t\techo \x27<script type=\"module\" src=\"" ++ (origin ++ "/@vite/client\"></script>\x27 . \"\\n\";")]
       ++ X
       ++ ["\t\x7d", "\x7d", "add_action( \x27wp_head\x27, \x27vite_hmr_inject\x27, 1 );", ""]) := by
    intro X
    refine ⟨["if ( ! function_exists( \x27vite_hmr_inject\x27 ) ) \x7b",
        "\tfunction vite_hmr_inject(): void \x7b",
        "\t\tif ( ! vite_hmr_is_dev() || ! vite_hmr_is_running() ) \x7b return; \x7d",
        "\t\techo \x27<script type=\"module\" src=\"" ++ (origin ++ "/@vite/client\"></script>\x27 . \"\\n\";")]
       ++ X ++ ["\t\x7d"], [""], ?_⟩
    simp [List.append_assoc, wpHeadRegistration]
  unfold injectorFragment
  exact h _

theorem sendHeadersPair_in_policy (p : String) :
    ["\x7d", sendHeadersRegistration] <:+: policyFragment p := by
  refine ⟨["if ( ! function_exists( \x27vite_hmr_csp\x27 ) ) \x7b",
      "\tfunction vite_hmr_csp(): void \x7b",
      "\t\tif ( ! vite_hmr_is_dev() ) \x7b return; \x7d",
      "\t\theader( \"" ++ (p ++ "\" );"),
      "\t\x7d"], [""], ?_⟩
  simp [policyFragment, sendHeadersRegistration]

/-! ## Count lemmas for the registration lines -/

theorem count_wpHead_header : headerFragment.count wpHeadRegistration = 0 := by
  decide

theorem count_wpHead_detector (ps : List String) :
    (detectorFragment ps).count wpHeadRegistration = 0 :=
  List.count_eq_zero.mpr (by
    simp +decide [detectorFragment, wpHeadRegistration, List.mem_cons])

theorem count_wpHead_probe (h p : String) (t : Int) :
    (probeFragment h p t).count wpHeadRegistration = 0 :=
  List.count_eq_zero.mpr (by
    simp +decide [probeFragment, wpHeadRegistration, List.mem_cons])

theorem count_wpHead_policy (p : String) :
    (policyFragment p).count wpHeadRegistration = 0 :=
  List.count_eq_zero.mpr (by
    simp +decide [policyFragment, wpHeadRegistration, List.mem_cons])

theorem count_wpHead_injector (origin : String) (cre : Option (List String)) :
    (injectorFragment origin cre).count wpHeadRegistration = 1 := by
  have key : ∀ X : List String, wpHeadRegistration ∉ X →
      (["if ( ! function_exists( \x27vite_hmr_inject\x27 ) ) \x7b",
         "\tfunction vite_hmr_inject(): void \x7b",
         "\t\tif ( ! vite_hmr_is_dev() || ! vite_hmr_is_running() ) \x7b return; \x7d",
         "\t\techo \x27<script type=\"module\" src=\"" ++ (origin ++ "/@vite/client\"></script>\x27 . \"\\n\";")]
        ++ X
        ++ ["\t\x7d", "\x7d", "add_action( \x27wp_head\x27, \x27vite_hmr_inject\x27, 1 );", ""]).count
          wpHeadRegistration = 1 := by
    intro X hX
    have hsplit : (["if ( ! function_exists( \x27vite_hmr_inject\x27 ) ) \x7b",
         "\tfunction vite_hmr_inject(): void \x7b",
         "\t\tif ( ! vite_hmr_is_dev() || ! vite_hmr_is_running() ) \x7b return; \x7d",
         "\t\techo \x27<script type=\"module\" src=\"" ++ (origin ++ "/@vite/client\"></script>\x27 . \"\\n\";")]
        ++ X
        ++ ["\t\x7d", "\x7d", "add_action( \x27wp_head\x27, \x27vite_hmr_inject\x27, 1 );", ""]) =
        (["if ( ! function_exists( \x27vite_hmr_inject\x27 ) ) \x7b",
         "\tfunction vite_hmr_inject(): void \x7b",
         "\t\tif ( ! vite_hmr_is_dev() || ! vite_hmr_is_running() ) \x7b return; \x7d",
         "\t\techo \x27<script type=\"module\" src=\"" ++ (origin ++ "/@vite/client\"></script>\x27 . \"\\n\";")]
        ++ X ++ ["\t\x7d", "\x7d"]) ++ wpHeadRegistration :: [""] := by
      simp [List.append_assoc, wpHeadRegistration]
    rw [hsplit]
    refine count_split_one ?_ (by decide)
    intro hmem
    rcases List.mem_append.mp hmem with hm | hm
    · rcases List.mem_append.mp hm with hm2 | hm2
      · revert hm2
        simp +decide [wpHeadRegistration, List.mem_cons]
      · exact hX hm2
    · revert hm
      simp +decide [wpHeadRegistration, List.mem_cons]
  unfold injectorFragment
  apply key
  rcases cre with _ | evs
  · simp
  · dsimp only
    split
    · simp
    · simp +decide [wpHeadRegistration, List.mem_append, List.mem_cons,
        List.mem_flatMap, cssEventLines]

theorem count_sendHeaders_header :
    headerFragment.count sendHeadersRegistration = 0 := by decide

theorem count_sendHeaders_detector (ps : List String) :
    (detectorFragment ps).count sendHeadersRegistration = 0 :=
  List.count_eq_zero.mpr (by
    simp +decide [detectorFragment, sendHeadersRegistration, List.mem_cons])

theorem count_sendHeaders_probe (h p : String) (t : Int) :
    (probeFragment h p t).count sendHeadersRegistration = 0 :=
  List.count_eq_zero.mpr (by
    simp +decide [probeFragment, sendHeadersRegistration, List.mem_cons])

theorem count_sendHeaders_injector (origin : String) (cre : Option (List String)) :
    (injectorFragment origin cre).count sendHeadersRegistration = 0 := by
  refine List.count_eq_zero.mpr ?_
  rcases cre with _ | evs
  · simp +decide [injectorFragment, sendHeadersRegistration, List.mem_cons]
  · simp +decide [injectorFragment, sendHeadersRegistration, List.mem_append,
      List.mem_cons, List.mem_flatMap, cssEventLines]

theorem count_sendHeaders_policy (p : String) :
    (policyFragment p).count sendHeadersRegistration = 1 := by
  have hsplit : policyFragment p =
      (["if ( ! function_exists( \x27vite_hmr_csp\x27 ) ) \x7b",
        "\tfunction vite_hmr_csp(): void \x7b",
        "\t\tif ( ! vite_hmr_is_dev() ) \x7b return; \x7d",
        "\t\theader( \"" ++ (p ++ "\" );"),
        "\t\x7d", "\x7d"]) ++ sendHeadersRegistration :: [""] := by
    simp [policyFragment, sendHeadersRegistration]
  rw [hsplit]
  refine count_split_one ?_ (by decide)
  simp +decide [sendHeadersRegistration, List.mem_cons]

/-! ## Listener-line filter lemmas -/

theorem filter_listener_header : headerFragment.filter isListenerLine = [] := by
  decide

theorem filter_listener_detector (ps : List String) :
    (detectorFragment ps).filter isListenerLine = [] := by
  simp +decide [detectorFragment, List.filter_cons]

theorem filter_listener_probe (h p : String) (t : Int) :
    (probeFragment h p t).filter isListenerLine = [] := by
  simp +decide [probeFragment, List.filter_cons]

theorem filter_listener_policy (p : String) :
    (policyFragment p).filter isListenerLine = [] := by
  simp +decide [policyFragment, List.filter_cons]

theorem filter_listener_cspSeg (c : Prop) [Decidable c] (p : String) :
    ((if c then ([] : List String) else policyFragment p).filter isListenerLine)
      = [] := by
  split
  · rfl
  · exact filter_listener_policy p

theorem filter_listener_injector (origin : String) (cre : Option (List String)) :
    (injectorFragment origin cre).filter isListenerLine =
      (cre.getD []).map hotOnLine := by
  rcases cre with _ | evs
  · simp +decide [injectorFragment, List.filter_cons]
  · rcases evs with _ | ⟨e, es⟩
    · simp +decide [injectorFragment, List.filter_cons]
    · simp +decide [injectorFragment, List.filter_cons, List.filter_append,
        filter_flatMap_cssEventLines, cssEventLines, hotOnLine]

/-! ## Policy-line absence when csp is disabled -/

theorem cspLines_notMem_of_false (origin : String) (url : Url)
    {o : WpHmrOptions} (h : o.csp = some (CspOption.bool false)) :
    cspGuardLine ∉ buildPhpLines origin url o
    ∧ cspFunctionLine ∉ buildPhpLines origin url o
    ∧ cspBodyLine ∉ buildPhpLines origin url o
    ∧ sendHeadersRegistration ∉ buildPhpLines origin url o
    ∧ ∀ p : String, policyHeaderLine p ∉ buildPhpLines origin url o := by
  obtain ⟨od, fn, dp, cre, csp, cl, ct, org⟩ := o
  simp only at h
  subst h
  rcases cre with _ | evs <;>
    refine ⟨?_, ?_, ?_, ?_, fun p => ?_⟩ <;>
      simp +decide [buildPhpLines, cssEventLines, cspGuardLine, cspFunctionLine,
        cspBodyLine, sendHeadersRegistration, policyHeaderLine,
        List.mem_append, List.mem_cons, List.mem_flatMap]

/-- C1 (amended): `csp === false` omits the policy machinery entirely — the
guard, declaration, body, `header(...)` call (for any policy text) and the
registration appear nowhere in the output lines; `csp === true` or absent
emits the fixed default permissive policy string; a string-valued `csp` is
emitted verbatim as the policy, and — provided that string differs from the
default policy — the default policy line does not appear. -/
theorem csp_option_policy_emission (origin : String) (url : Url)
    (o : WpHmrOptions) :
    (o.csp = some (CspOption.bool false) →
      cspGuardLine ∉ buildPhpLines origin url o
      ∧ cspFunctionLine ∉ buildPhpLines origin url o
      ∧ cspBodyLine ∉ buildPhpLines origin url o
      ∧ sendHeadersRegistration ∉ buildPhpLines origin url o
      ∧ ∀ p : String, policyHeaderLine p ∉ buildPhpLines origin url o)
    ∧ ((o.csp = none ∨ o.csp = some (CspOption.bool true)) →
      policyHeaderLine defaultCspPolicy ∈ buildPhpLines origin url o)
    ∧ (∀ s : String, o.csp = some (CspOption.str s) →
      policyHeaderLine s ∈ buildPhpLines origin url o
      ∧ (s ≠ defaultCspPolicy →
          policyHeaderLine defaultCspPolicy ∉ buildPhpLines origin url o)) := by
  refine ⟨fun h => cspLines_notMem_of_false origin url h, ?_, ?_⟩
  · intro h
    obtain ⟨od, fn, dp, cre, csp, cl, ct, org⟩ := o
    simp only at h
    rcases h with h | h <;> subst h <;> rcases cre with _ | evs <;>
      simp +decide [buildPhpLines, policyHeaderLine, List.mem_append,
        List.mem_cons]
  · intro s h
    obtain ⟨od, fn, dp, cre, csp, cl, ct, org⟩ := o
    simp only at h
    subst h
    constructor
    · rcases cre with _ | evs <;>
        simp +decide [buildPhpLines, policyHeaderLine, List.mem_append,
          List.mem_cons]
    · intro hs
      have hs' : defaultCspPolicy ≠ s := fun hh => hs hh.symm
      rcases cre with _ | evs <;>
        simp +decide [buildPhpLines, cssEventLines, policyHeaderLine, hs',
          List.mem_append, List.mem_cons, List.mem_flatMap]

theorem csp_option_policy_emission_witness :
    policyHeaderLine defaultCspPolicy ∈
      buildPhpLines sampleOrigin sampleUrl sampleOptions :=
  (csp_option_policy_emission sampleOrigin sampleUrl sampleOptions).2.1
    (Or.inl rfl)

/-- C1 counterexample: with `csp` set to a string value that happens to equal
the default policy, the fixed default policy string does appear in the output,
refuting the claim's clause that for every string value of `csp` the default
policy string does not appear. -/
theorem csp_custom_string_counterexample :
    ({ outputDir := "/tmp/mu-plugins",
       csp := some (CspOption.str defaultCspPolicy) } : WpHmrOptions).csp
      = some (CspOption.str defaultCspPolicy)
    ∧ policyHeaderLine defaultCspPolicy ∈
        buildPhpLines sampleOrigin sampleUrl
          { outputDir := "/tmp/mu-plugins",
            csp := some (CspOption.str defaultCspPolicy) } :=
  ⟨rfl, by decide⟩

/-- C2: an empty or absent `cssReloadEvents` yields no hot-context
subscription block — no hot-context import, no hot-context creation statement
and no listener registration for any event; when `cssReloadEvents` is
supplied, the listener-registration lines of the output are exactly one per
supplied event name, each carrying that exact event string, in the supplied
order. -/
theorem cssReloadEvents_listener_block (origin : String) (url : Url)
    (o : WpHmrOptions) :
    ((o.cssReloadEvents = none ∨ o.cssReloadEvents = some []) →
      importHotContextLine origin ∉ buildPhpLines origin url o
      ∧ createHotContextLine ∉ buildPhpLines origin url o
      ∧ ∀ e : String, hotOnLine e ∉ buildPhpLines origin url o)
    ∧ (∀ evs : List String, o.cssReloadEvents = some evs →
        (buildPhpLines origin url o).filter isListenerLine =
          evs.map hotOnLine)
    ∧ (o.cssReloadEvents = none →
        (buildPhpLines origin url o).filter isListenerLine = []) := by
  refine ⟨?_, ?_, ?_⟩
  · intro h
    obtain ⟨od, fn, dp, cre, csp, cl, ct, org⟩ := o
    simp only at h
    rcases h with h | h <;> subst h <;>
      rcases csp with _ | ((_ | _) | s) <;>
        refine ⟨?_, ?_, fun e => ?_⟩ <;>
          simp +decide [buildPhpLines, cssEventLines, importHotContextLine,
            createHotContextLine, hotOnLine, List.mem_append, List.mem_cons]
  · intro evs h
    rw [buildPhpLines_decomp origin url o, h]
    simp [List.filter_append, filter_listener_header, filter_listener_detector,
      filter_listener_probe, filter_listener_injector, filter_listener_cspSeg]
  · intro h
    rw [buildPhpLines_decomp origin url o, h]
    simp [List.filter_append, filter_listener_header, filter_listener_detector,
      filter_listener_probe, filter_listener_injector, filter_listener_cspSeg]

theorem cssReloadEvents_listener_block_witness :
    (buildPhpLines sampleOrigin sampleUrl
        { outputDir := "/tmp/mu-plugins",
          cssReloadEvents := some ["evt1", "evt2"] }).filter isListenerLine
      = ["evt1", "evt2"].map hotOnLine :=
  (cssReloadEvents_listener_block sampleOrigin sampleUrl
    { outputDir := "/tmp/mu-plugins",
      cssReloadEvents := some ["evt1", "evt2"] }).2.1 ["evt1", "evt2"] rfl

/-- C5 (amended): in every output the three always-present functions —
`vite_hmr_is_dev`, `vite_hmr_is_running`, `vite_hmr_inject` — have their
declaration line immediately preceded by their `function_exists` existence
guard; the policy function `vite_hmr_csp` is likewise guarded whenever
`csp !== false`, while with `csp === false` neither its guard nor its
declaration appears at all. -/
theorem functions_wrapped_in_guards (origin : String) (url : Url)
    (o : WpHmrOptions) :
    [devGuardLine, devFunctionLine] <:+: buildPhpLines origin url o
    ∧ [runGuardLine, runFunctionLine] <:+: buildPhpLines origin url o
    ∧ [injGuardLine, injFunctionLine] <:+: buildPhpLines origin url o
    ∧ (o.csp ≠ some (CspOption.bool false) →
        [cspGuardLine, cspFunctionLine] <:+: buildPhpLines origin url o)
    ∧ (o.csp = some (CspOption.bool false) →
        cspGuardLine ∉ buildPhpLines origin url o
        ∧ cspFunctionLine ∉ buildPhpLines origin url o) := by
  have hL := buildPhpLines_decomp origin url o
  refine ⟨?_, ?_, ?_, ?_,
    fun h => ⟨(cspLines_notMem_of_false origin url h).1,
      (cspLines_notMem_of_false origin url h).2.1⟩⟩
  · rw [hL]
    have := infix_extend headerFragment
      (probeFragment url.hostname (resolvePort url) (o.cacheTtl.getD 5)
        ++ injectorFragment origin o.cssReloadEvents
        ++ (if o.csp = some (CspOption.bool false) then []
            else policyFragment (cspPolicy o.csp)))
      (devPair_in_detector (DEFAULT_TLDS ++ o.devPatterns.getD []))
    simpa [List.append_assoc] using this
  · rw [hL]
    have := infix_extend
      (headerFragment ++ detectorFragment (DEFAULT_TLDS ++ o.devPatterns.getD []))
      (injectorFragment origin o.cssReloadEvents
        ++ (if o.csp = some (CspOption.bool false) then []
            else policyFragment (cspPolicy o.csp)))
      (runPair_in_probe url.hostname (resolvePort url) (o.cacheTtl.getD 5))
    simpa [List.append_assoc] using this
  · rw [hL]
    have := infix_extend
      (headerFragment ++ detectorFragment (DEFAULT_TLDS ++ o.devPatterns.getD [])
        ++ probeFragment url.hostname (resolvePort url) (o.cacheTtl.getD 5))
      (if o.csp = some (CspOption.bool false) then []
       else policyFragment (cspPolicy o.csp))
      (injPair_in_injector origin o.cssReloadEvents)
    simpa [List.append_assoc] using this
  · intro h
    rw [hL, if_neg h]
    have := infix_extend
      (headerFragment ++ detectorFragment (DEFAULT_TLDS ++ o.devPatterns.getD [])
        ++ probeFragment url.hostname (resolvePort url) (o.cacheTtl.getD 5)
        ++ injectorFragment origin o.cssReloadEvents)
      ([] : List String)
      (cspPair_in_policy (cspPolicy o.csp))
    simpa [List.append_assoc] using this

theorem functions_wrapped_in_guards_witness :
    [cspGuardLine, cspFunctionLine] <:+:
      buildPhpLines sampleOrigin sampleUrl sampleOptions :=
  (functions_wrapped_in_guards sampleOrigin sampleUrl sampleOptions).2.2.2.1
    (by decide)

/-- C5 counterexample: with `csp === false` the existence guard of
`vite_hmr_csp` appears nowhere in the output, refuting the claim that every
one of the four functions is wrapped in a guard for every configuration,
csp === false included. -/
theorem csp_guard_absent_counterexample :
    ({ outputDir := "/tmp/mu-plugins",
       csp := some (CspOption.bool false) } : WpHmrOptions).csp
      = some (CspOption.bool false)
    ∧ cspGuardLine ∉
        buildPhpLines sampleOrigin sampleUrl
          { outputDir := "/tmp/mu-plugins",
            csp := some (CspOption.bool false) } :=
  ⟨rfl, by decide⟩

/-- C6: for every origin the URL parser accepts and every configuration, the
output of `buildPhp` is the newline-join of its fragments in the fixed
relative order: header comment, then dev-detector, then reachability probe,
then injector with its registration, then — unless csp is disabled — the
policy function with its registration. -/
theorem output_is_ordered_fragment_join (origin : String) (u : Url)
    (o : WpHmrOptions) (h : parseUrl origin = some u) :
    buildPhp origin o = some (String.intercalate "\n"
      (headerFragment
       ++ detectorFragment (DEFAULT_TLDS ++ o.devPatterns.getD [])
       ++ probeFragment u.hostname (resolvePort u) (o.cacheTtl.getD 5)
       ++ injectorFragment origin o.cssReloadEvents
       ++ (if o.csp = some (CspOption.bool false) then []
           else policyFragment (cspPolicy o.csp)))) := by
  rw [buildPhp, h, Option.map_some', buildPhpLines_decomp]

theorem output_is_ordered_fragment_join_witness :
    parseUrl sampleOrigin = some sampleUrl
    ∧ buildPhp sampleOrigin sampleOptions = some (String.intercalate "\n"
        (headerFragment
         ++ detectorFragment (DEFAULT_TLDS ++ sampleOptions.devPatterns.getD [])
         ++ probeFragment sampleUrl.hostname (resolvePort sampleUrl)
             (sampleOptions.cacheTtl.getD 5)
         ++ injectorFragment sampleOrigin sampleOptions.cssReloadEvents
         ++ (if sampleOptions.csp = some (CspOption.bool false) then []
             else policyFragment (cspPolicy sampleOptions.csp)))) :=
  ⟨by decide,
    output_is_ordered_fragment_join sampleOrigin sampleUrl sampleOptions
      (by decide)⟩

/-- C10: the extension-point registrations sit outside the existence guards —
each directly follows the closing brace of its guard block; the injector
registration `add_action( 'wp_head', 'vite_hmr_inject', 1 );` appears exactly
once in every output, and the policy registration
`add_action( 'send_headers', 'vite_hmr_csp', 1 );` appears exactly once when
`csp !== false` and not at all when `csp === false`. -/
theorem registrations_outside_guards (origin : String) (url : Url)
    (o : WpHmrOptions) :
    (buildPhpLines origin url o).count wpHeadRegistration = 1
    ∧ ["\x7d", wpHeadRegistration] <:+: buildPhpLines origin url o
    ∧ (o.csp = some (CspOption.bool false) →
        sendHeadersRegistration ∉ buildPhpLines origin url o)
    ∧ (o.csp ≠ some (CspOption.bool false) →
        (buildPhpLines origin url o).count sendHeadersRegistration = 1
        ∧ ["\x7d", sendHeadersRegistration] <:+: buildPhpLines origin url o) := by
  have hL := buildPhpLines_decomp origin url o
  refine ⟨?_, ?_,
    fun h => (cspLines_notMem_of_false origin url h).2.2.2.1,
    fun h => ⟨?_, ?_⟩⟩
  · rw [hL, List.count_append, List.count_append, List.count_append,
      List.count_append]
    rw [count_wpHead_header, count_wpHead_detector, count_wpHead_probe,
      count_wpHead_injector]
    have hC : (if o.csp = some (CspOption.bool false) then []
        else policyFragment (cspPolicy o.csp)).count wpHeadRegistration = 0 := by
      split
      · rfl
      · exact count_wpHead_policy _
    rw [hC]
  · rw [hL]
    have := infix_extend
      (headerFragment ++ detectorFragment (DEFAULT_TLDS ++ o.devPatterns.getD [])
        ++ probeFragment url.hostname (resolvePort url) (o.cacheTtl.getD 5))
      (if o.csp = some (CspOption.bool false) then []
       else policyFragment (cspPolicy o.csp))
      (wpHeadPair_in_injector origin o.cssReloadEvents)
    simpa [List.append_assoc] using this
  · rw [hL, if_neg h, List.count_append, List.count_append, List.count_append,
      List.count_append]
    rw [count_sendHeaders_header, count_sendHeaders_detector,
      count_sendHeaders_probe, count_sendHeaders_injector,
      count_sendHeaders_policy]
  · rw [hL, if_neg h]
    have := infix_extend
      (headerFragment ++ detectorFragment (DEFAULT_TLDS ++ o.devPatterns.getD [])
        ++ probeFragment url.hostname (resolvePort url) (o.cacheTtl.getD 5)
        ++ injectorFragment origin o.cssReloadEvents)
      ([] : List String)
      (sendHeadersPair_in_policy (cspPolicy o.csp))
    simpa [List.append_assoc] using this

theorem registrations_outside_guards_witness :
    (buildPhpLines sampleOrigin sampleUrl sampleOptions).count
      sendHeadersRegistration = 1 :=
  ((registrations_outside_guards sampleOrigin sampleUrl sampleOptions).2.2.2
    (by decide)).1
